import Mathlib

/-!
Verification of the metrics aggregation engine of the euro-2024 event
analytics repository, as a shallow embedding in Lean 4.

The embedding models a pandas `DataFrame` as an explicit column-name list
plus a list of rows; each row is an association list from column names to
cell values.  A cell value may be a string, a rational number (modelling
Python ints/floats; all arithmetic in the metrics in scope is exact, so ℚ
is a faithful carrier), a boolean, or null (modelling NaN / None).  A
column that is present in the frame but has no entry in a row's
association list holds null, matching the pandas convention that every
row has every column, with NaN for missing data.  A column absent from
the frame's column list is absent for every row.
-/

namespace Euro2024

/-- A cell value of the events table: string, numeric (ℚ models Python
int/float exactly for the computations in scope), boolean, or null
(NaN / None). -/
inductive Value where
  | str (s : String)
  | num (q : ℚ)
  | boolean (b : Bool)
  | null
deriving DecidableEq, Repr

/-- One row of a data frame: association list from column name to value. -/
abbrev Row := List (String × Value)

/-- A data frame: the set of columns, and the rows.  Mirrors a pandas
`DataFrame` (column presence is frame-level; a missing entry in a row is
NaN for a present column). -/
structure DFrame where
  cols : List String
  rows : List Row
deriving DecidableEq, Repr

/-- Value of column `c` in row `r` of a frame with columns `cols`:
`none` when the column does not exist in the frame at all, otherwise
`some v` where `v` is the row's entry (null when the row has no entry). -/
def cellIn (cols : List String) (r : Row) (c : String) : Option Value :=
  if c ∈ cols then some (((r.lookup c).getD Value.null)) else none

/-- Models `pd.isna` on a present cell. -/
def isNullV : Value → Bool
  | Value.null => true
  | _ => false

/-- Does this present-or-absent cell compare equal (pandas `==`) to the
string `s`?  NaN and values of other types compare unequal. -/
def cellEqStr (v : Option Value) (s : String) : Bool :=
  match v with
  | some (Value.str t) => t = s
  | _ => false

/-- Models `pd.to_numeric(errors="coerce")` on a single cell: numeric values
pass through, booleans coerce to 0/1, everything else (strings, null,
absent column) coerces to NaN (`none`).
Modelling note: numeric-text strings (e.g. "12.5"), which `to_numeric`
would parse, are not modelled; every dataset in scope carries
coordinates and lengths as numbers or NaN. -/
def toNumeric : Option Value → Option ℚ
  | some (Value.num q) => some q
  | some (Value.boolean b) => some (if b then 1 else 0)
  | _ => none

/-- Keep the first occurrence of every element (first-encountered order),
modelling `pandas.Series.unique` / dict-insertion order. -/
def firstDedup [DecidableEq α] : List α → List α
  | [] => []
  | a :: l => a :: (firstDedup (l.filter (fun b => b ≠ a)))
termination_by l => l.length
decreasing_by
  simp only [List.length_cons]
  exact Nat.lt_succ_of_le (List.length_filter_le _ _)

/-- Insert `a` into `l` before the first element `b` with `le a b`.
When `l` is sorted w.r.t. a total `le` this is stable insertion. -/
def sInsertLe (le : α → α → Bool) (a : α) : List α → List α
  | [] => [a]
  | b :: l => if le a b then a :: b :: l else b :: sInsertLe le a l

/-- Stable insertion sort w.r.t. a (total, transitive) boolean `le`.
Any two stable sorts agree, so this models pandas' stable
`kind="mergesort"` sorts exactly; it is also the reference model for
the ascending `argsort` pandas performs inside `sort_values`. -/
def sSortLe (le : α → α → Bool) : List α → List α
  | [] => []
  | a :: l => sInsertLe le a (sSortLe le l)

-- ─────────────────────────────────────────────────────────────
-- src/metrics/shared/filters.py
-- ─────────────────────────────────────────────────────────────

/-- Models `filter_by_player(df, player)`: `df[df["player"] == player]`. -/
def filter_by_player (df : DFrame) (player : String) : DFrame :=
  { cols := df.cols
    rows := df.rows.filter (fun r => cellEqStr (cellIn df.cols r "player") player) }

/-- Models `filter_by_team(df, team)`: `df[df["team"] == team]`. -/
def filter_by_team (df : DFrame) (team : String) : DFrame :=
  { cols := df.cols
    rows := df.rows.filter (fun r => cellEqStr (cellIn df.cols r "team") team) }

-- ─────────────────────────────────────────────────────────────
-- src/metrics/base_metrics.py : BaseMetricSet
-- ─────────────────────────────────────────────────────────────

namespace BaseMetricSet

/-- Models `BaseMetricSet.__post_init__`: if an `event_type` is configured and the
frame has a `type` column, keep only rows whose `type` equals it;
otherwise keep every row (`reset_index(drop=True)` does not change row
content or order). -/
def postInit (df : DFrame) (event_type : Option String) : DFrame :=
  match event_type with
  | some et =>
      if "type" ∈ df.cols then
        { cols := df.cols
          rows := df.rows.filter (fun r => cellEqStr (cellIn df.cols r "type") et) }
      else df
  | none => df

/-- Models `BaseMetricSet._is_success` for one row: when the configured outcome
column exists, NaN in it means success; otherwise False. -/
def is_success (cols : List String) (outcome_column : Option String) (r : Row) : Bool :=
  match outcome_column with
  | some oc =>
      match cellIn cols r oc with
      | some v => isNullV v
      | none => false
  | none => false

/-- Models `BaseMetricSet.attempts(df, *masks)`: rows matching the AND of the
per-row masks.  Masks in scope are all computed row-wise. -/
def attempts (df : DFrame) (masks : List (Row → Bool)) : Nat :=
  (df.rows.filter (fun r => masks.all (fun m => m r))).length

/-- Models `BaseMetricSet.successes(df, *masks)`. -/
def successes (df : DFrame) (outcome_column : Option String)
    (masks : List (Row → Bool)) : Nat :=
  ((df.rows.filter (fun r => masks.all (fun m => m r))).filter
    (is_success df.cols outcome_column)).length

/-- Models `BaseMetricSet.success_rate(df, *masks)`: successes / attempts, 0.0
when attempts is 0. -/
def success_rate (df : DFrame) (outcome_column : Option String)
    (masks : List (Row → Bool)) : ℚ :=
  let att := attempts df masks
  if att = 0 then 0 else (successes df outcome_column masks : ℚ) / (att : ℚ)

/-- Models `BaseMetricSet.final_third_series` for one row: fixed absolute
threshold `x > 80` (non-numeric / missing coordinate or absent column
gives False, matching NaN comparison semantics). -/
def final_third_series (cols : List String) (r : Row) (x_col : String) : Bool :=
  match toNumeric (cellIn cols r x_col) with
  | some q => 80 < q
  | none => false

/-- Models `BaseMetricSet.in_box_series` for one row: `x >= 102 ∧ 18 <= y <= 62`;
False when either column is absent or a coordinate is missing. -/
def in_box_series (cols : List String) (r : Row) (x_col y_col : String) : Bool :=
  match toNumeric (cellIn cols r x_col), toNumeric (cellIn cols r y_col) with
  | some x, some y => 102 ≤ x ∧ 18 ≤ y ∧ y ≤ 62
  | _, _ => false

/-- The pass vector `(dx, dy)` of `pass_angle_series` for one row:
`none` when any of the four coordinate columns is absent or a
coordinate is missing/non-numeric (the angle is NaN there). -/
def pass_vector (cols : List String) (r : Row) : Option (ℚ × ℚ) :=
  match toNumeric (cellIn cols r "x"), toNumeric (cellIn cols r "y"),
        toNumeric (cellIn cols r "pass_end_x"), toNumeric (cellIn cols r "pass_end_y") with
  | some x0, some y0, some x1, some y1 => some (x1 - x0, y1 - y0)
  | _, _, _, _ => none

/-- The forward angle band of the direction masks,
`-π/6 ≤ atan2(dy, dx) ≤ π/6`, characterised exactly over ℚ:
the closed cone of half-angle 30° about the +x axis is
`dx ≥ 0 ∧ 3·dy² ≤ dx²` (since `tan(π/6) = 1/√3`, and
`atan2(0, 0) = 0` lies in the band). -/
def forward_band (v : ℚ × ℚ) : Bool :=
  0 ≤ v.1 ∧ 3 * v.2 ^ 2 ≤ v.1 ^ 2

/-- The backward angle band, `atan2(dy, dx) ≥ 5π/6 ∨ atan2(dy, dx) ≤ -5π/6`,
characterised exactly over ℚ: the closed cone of half-angle 30° about
the −x axis is `dx < 0 ∧ 3·dy² ≤ dx²`. -/
def backward_band (v : ℚ × ℚ) : Bool :=
  v.1 < 0 ∧ 3 * v.2 ^ 2 ≤ v.1 ^ 2

end BaseMetricSet

/-- Truncation of a rational toward zero, modelling Python `int(x)` /
numpy `astype(int)`. -/
def ratTrunc (q : ℚ) : ℤ := q.num.tdiv (q.den : ℤ)

/-- Python `str()` of a cell value, as used by `.astype(str)`.
Modelling notes: a `num` with denominator 1 renders like a Python int
(`"1"`); non-integer numerics render differently from Python floats, but
every use in scope only tests membership in a fixed lowercase truthy set
or searches for the token "through ball", which no numeric rendering can
satisfy either way. -/
def pyStr : Value → String
  | Value.str s => s
  | Value.boolean b => if b then "True" else "False"
  | Value.num q => if q.den = 1 then toString q.num else toString q
  | Value.null => "nan"

-- ─────────────────────────────────────────────────────────────
-- src/metrics/passes_core.py : PassMetricsCore
-- ─────────────────────────────────────────────────────────────

namespace PassMetricsCore

def DEFAULT_MATCH_MINUTES : ℚ := 90

/-- Models `PassMetricsCore._per90(value, key)`: minutes looked up in the
resolved map with `DEFAULT_MATCH_MINUTES` as the `.get` default, and
non-positive minutes replaced by `DEFAULT_MATCH_MINUTES` as well;
then `value * 90 / mins`. -/
def per90 (minutes_map : List (String × ℚ)) (value : ℚ) (key : String) : ℚ :=
  let mins := (minutes_map.lookup key).getD DEFAULT_MATCH_MINUTES
  let mins := if mins ≤ 0 then DEFAULT_MATCH_MINUTES else mins
  (value * 90) / mins

/-- Models `PassMetricsCore._fallback_minutes_map`.
Keys in scope are player-name strings; `dropna()` drops null keys, and
(modelling note) non-string keys are not modelled.  The groupby result
is a dict, so only its lookup semantics matter; keys are kept in
first-encountered order. -/
def fallback_minutes_map (df : DFrame) (key_col : String) : List (String × ℚ) :=
  if df.rows.isEmpty ∨ key_col ∉ df.cols then []
  else if "match_id" ∉ df.cols then
    (firstDedup (df.rows.filterMap (fun r =>
      match cellIn df.cols r key_col with
      | some (Value.str s) => some s
      | _ => none))).map (fun k => (k, DEFAULT_MATCH_MINUTES))
  else
    let pairs : List (String × Value) := df.rows.filterMap (fun r =>
      match cellIn df.cols r key_col, cellIn df.cols r "match_id" with
      | some (Value.str s), some mv => if isNullV mv then none else some (s, mv)
      | _, _ => none)
    let dpairs := firstDedup pairs
    (firstDedup (dpairs.map Prod.fst)).map (fun k =>
      (k, DEFAULT_MATCH_MINUTES * ((dpairs.filter (fun p => p.1 = k)).length : ℚ)))

/-- Models `PassMetricsCore._resolve_minutes_map`. -/
def resolve_minutes_map (df : DFrame) (key_col : String) :
    Option (List (String × ℚ)) → List (String × ℚ)
  | some m => m
  | none => fallback_minutes_map df key_col

/-- The state of a constructed `PassMetricsCore`: the Pass-filtered frame
and the resolved minutes map. -/
structure Core where
  df : DFrame
  minutes_map : List (String × ℚ)
deriving Repr

/-- Models `PassMetricsCore.__init__(df, minutes_map=..., key_col=...)`:
filters to `event_type="Pass"` (outcome column `"pass_outcome"`) via the
base initializer, then resolves the minutes map over the filtered frame. -/
def init (df : DFrame) (minutes_map : Option (List (String × ℚ)) := none)
    (key_col : String := "player") : Core :=
  let d := BaseMetricSet.postInit df (some "Pass")
  { df := d, minutes_map := resolve_minutes_map d key_col minutes_map }

/-- The `player`-refinement every catalog method starts with:
`df if player is None else df[df["player"] == player]`. -/
def playerScope (df : DFrame) (player : Option String) : DFrame :=
  match player with
  | none => df
  | some p =>
      { cols := df.cols
        rows := df.rows.filter (fun r => cellEqStr (cellIn df.cols r "player") p) }

/-- Models `PassMetricsCore._third_bounds(df, xcol)`: `(t1, t2)` at 1/3 and 2/3
of the max observed numeric x; `(40, 80)` when the column is absent or
the frame empty; 120 substituted for a NaN or non-positive max. -/
def third_bounds (df : DFrame) (xcol : String) : ℚ × ℚ :=
  if xcol ∉ df.cols ∨ df.rows.isEmpty then (40, 80)
  else
    let max_x := ((df.rows.filterMap
      (fun r => toNumeric (cellIn df.cols r xcol))).max?).getD 120
    let max_x := if max_x ≤ 0 then 120 else max_x
    (max_x / 3, 2 * max_x / 3)

/-- Models `PassMetricsCore._zone_series(df, xcol, zone)` for one row: the named
zone test against the data-derived bounds ("D3": `x < t1`, "M3":
`t1 ≤ x < t2`, "F3": `x ≥ t2`); False on NaN, absent column, empty
frame, or an unknown zone name. -/
def zone_series (df : DFrame) (xcol : String) (zone : String) (r : Row) : Bool :=
  if df.rows.isEmpty ∨ xcol ∉ df.cols then false
  else
    let t := third_bounds df xcol
    match toNumeric (cellIn df.cols r xcol) with
    | some x =>
        if zone = "D3" then x < t.1
        else if zone = "M3" then t.1 ≤ x ∧ x < t.2
        else if zone = "F3" then t.2 ≤ x
        else false
    | none => false

/-- Denominator mask of `PassMetricsCore._direction_masks_by_zone`:
the angle is computable and the start or end x is in the zone. -/
def dir_denom (df : DFrame) (zone : String) (r : Row) : Bool :=
  (BaseMetricSet.pass_vector df.cols r).isSome &&
    (zone_series df "x" zone r || zone_series df "pass_end_x" zone r)

/-- Forward mask of `_direction_masks_by_zone`: in the denominator with
`-π/6 ≤ θ ≤ π/6`. -/
def dir_forward (df : DFrame) (zone : String) (r : Row) : Bool :=
  dir_denom df zone r &&
    (match BaseMetricSet.pass_vector df.cols r with
     | some v => BaseMetricSet.forward_band v
     | none => false)

/-- Backward mask of `_direction_masks_by_zone`: in the denominator with
`θ ≥ 5π/6 ∨ θ ≤ -5π/6`. -/
def dir_backward (df : DFrame) (zone : String) (r : Row) : Bool :=
  dir_denom df zone r &&
    (match BaseMetricSet.pass_vector df.cols r with
     | some v => BaseMetricSet.backward_band v
     | none => false)

/-- Sideways mask of `_direction_masks_by_zone`: in the denominator and
neither forward nor backward. -/
def dir_sideways (df : DFrame) (zone : String) (r : Row) : Bool :=
  dir_denom df zone r && !(dir_forward df zone r || dir_backward df zone r)

/-- Denominator mask of the legacy `PassMetricsCore._direction_masks`:
valid angle, and (only when `final_third=True`) start or end beyond the
fixed `final_third_series` threshold `x > 80`. -/
def legacy_denom (df : DFrame) (final_third : Bool) (r : Row) : Bool :=
  (BaseMetricSet.pass_vector df.cols r).isSome &&
    (!final_third ||
      (BaseMetricSet.final_third_series df.cols r "x" ||
       BaseMetricSet.final_third_series df.cols r "pass_end_x"))

/-- Forward mask of the legacy `_direction_masks`. -/
def legacy_forward (df : DFrame) (final_third : Bool) (r : Row) : Bool :=
  legacy_denom df final_third r &&
    (match BaseMetricSet.pass_vector df.cols r with
     | some v => BaseMetricSet.forward_band v
     | none => false)

/-- Models `PassMetricsCore.f3_pass_forward_percentage(player)`: forward share
of the legacy final-third denominator, 0.0 on an empty denominator. -/
def f3_pass_forward_percentage (c : Core) (player : Option String := none) : ℚ :=
  let df := playerScope c.df player
  let att := (df.rows.filter (legacy_denom df true)).length
  if att = 0 then 0
  else ((df.rows.filter (legacy_forward df true)).length : ℚ) / (att : ℚ)

/-- Models `PassMetricsCore.f3_pass_attempts(player)`: size of the
`_direction_masks_by_zone` "F3" denominator. -/
def f3_pass_attempts (c : Core) (player : Option String := none) : ℕ :=
  let df := playerScope c.df player
  if df.rows.isEmpty then 0
  else (df.rows.filter (dir_denom df "F3")).length

/-- Models `PassMetricsCore.f3_pass_attempts_per90(player)`. -/
def f3_pass_attempts_per90 (c : Core) (player : String) : ℚ :=
  per90 c.minutes_map (f3_pass_attempts c (some player) : ℚ) player

/-- Models `PassMetricsCore.d3_pass_attempts(player)`. -/
def d3_pass_attempts (c : Core) (player : Option String := none) : ℕ :=
  let df := playerScope c.df player
  if df.rows.isEmpty then 0
  else (df.rows.filter (dir_denom df "D3")).length

/-- Models `PassMetricsCore.d3_pass_attempts_per90(player)`. -/
def d3_pass_attempts_per90 (c : Core) (player : String) : ℚ :=
  per90 c.minutes_map (d3_pass_attempts c (some player) : ℚ) player

end PassMetricsCore

/-- A column has pandas `bool` dtype iff every cell is a Python bool
(any NaN or other value upgrades the column to numeric/object dtype). -/
def colDtypeBool (df : DFrame) (c : String) : Bool :=
  df.rows.all (fun r =>
    match cellIn df.cols r c with
    | some (Value.boolean _) => true
    | _ => false)

/-- A column has a numeric pandas dtype iff every cell is numeric or NaN. -/
def colDtypeNumeric (df : DFrame) (c : String) : Bool :=
  df.rows.all (fun r =>
    match cellIn df.cols r c with
    | some (Value.num _) => true
    | some Value.null => true
    | _ => false)

/-- Regex word character (`\w`). -/
def isWordChar (c : Char) : Bool := c.isAlphanum || c = '_'

/-- Does one of the three token spellings of `through[- ]?ball` start at
the head of `l`, with the right-hand `\b` boundary satisfied? -/
def tbAt (l : List Char) : Bool :=
  ["through ball".toList, "through-ball".toList, "throughball".toList].any
    (fun pat => pat.isPrefixOf l && !(isWordChar ((l.drop pat.length).headD ' ')))

/-- Scan for a `\bthrough[- ]?ball\b` match; `prevWord` carries whether
the previous character was a word character (left `\b` boundary). -/
def tbScan (prevWord : Bool) : List Char → Bool
  | [] => false
  | c :: rest => ((!prevWord) && tbAt (c :: rest)) || tbScan (isWordChar c) rest

/-- Models `str.contains(r"\bthrough[- ]?ball\b", regex=True)` on a string. -/
def containsThroughBall (s : String) : Bool := tbScan false s.toList

namespace PassMetricsCore

/-- The boolean-like-flag contribution of
`PassMetricsCore._is_throughball_series`: dtype-dependent reading of
`pass_through_ball` (bool dtype as-is; numeric dtype via
`fillna(0).astype(int).astype(bool)`; otherwise
`astype(str).str.strip().str.lower()` membership in
`{"true","1","yes","y","t"}`). -/
def throughball_flag (df : DFrame) (r : Row) : Bool :=
  if "pass_through_ball" ∈ df.cols then
    if colDtypeBool df "pass_through_ball" then
      match cellIn df.cols r "pass_through_ball" with
      | some (Value.boolean b) => b
      | _ => false
    else if colDtypeNumeric df "pass_through_ball" then
      match cellIn df.cols r "pass_through_ball" with
      | some (Value.num q) => ratTrunc q ≠ 0
      | _ => false
    else
      match cellIn df.cols r "pass_through_ball" with
      | some v =>
          ((pyStr v).trim.toLower) ∈ (["true", "1", "yes", "y", "t"] : List String)
      | none => false
  else false

/-- The technique-text contribution of `_is_throughball_series`:
`pass_technique` lowered, stripped, and matched against
`\bthrough[- ]?ball\b` (`na=False`; NaN renders as `"nan"` under
`astype(str)` and never matches). -/
def throughball_technique (df : DFrame) (r : Row) : Bool :=
  if "pass_technique" ∈ df.cols then
    match cellIn df.cols r "pass_technique" with
    | some v => containsThroughBall ((pyStr v).toLower.trim)
    | none => false
  else false

/-- Models `PassMetricsCore._is_throughball_series` for one row: all-False on an
empty frame, otherwise the OR of the flag and technique signals
(each contributing only when its column exists). -/
def is_throughball_series (df : DFrame) (r : Row) : Bool :=
  if df.rows.isEmpty then false
  else throughball_flag df r || throughball_technique df r

end PassMetricsCore

namespace BaseMetricSet

/-- Models `BaseMetricSet.top_n(group_column, n, value_name)`.
`groupby(group_column).size()` produces the distinct non-null group keys
in ascending sorted order with their row counts (groupby drops NaN keys;
keys in scope are strings); `.sort_values(ascending=False)` computes an
ascending argsort of the counts and reverses it (pandas `nargsort`), so
it is modelled as the stable ascending sort by count followed by
reversal (numpy's argsort on the short, concrete arrays in scope is
insertion sort, which the stable model reproduces exactly);
`.head(n)` truncates.  The result pairs are (group key, count); the
`value_name` argument only names the count column. -/
def top_n (df : DFrame) (group_column : String) (n : ℕ) : List (String × ℕ) :=
  if df.rows.isEmpty ∨ group_column ∉ df.cols then []
  else
    let keys := df.rows.filterMap (fun r =>
      match cellIn df.cols r group_column with
      | some (Value.str s) => some s
      | _ => none)
    let grouped := (sSortLe (fun a b => decide (a ≤ b)) (firstDedup keys)).map
      (fun k => (k, keys.count k))
    ((sSortLe (fun a b => decide (a.2 ≤ b.2)) grouped).reverse).take n

/-- Modelled from the spec's words, for comparison with `top_n` only:
group keys sorted by count descending with ties broken by the order in
which each key is first encountered in the source rows, truncated to
`n`. -/
def top_n_claimed (df : DFrame) (group_column : String) (n : ℕ) : List (String × ℕ) :=
  if df.rows.isEmpty ∨ group_column ∉ df.cols then []
  else
    let keys := df.rows.filterMap (fun r =>
      match cellIn df.cols r group_column with
      | some (Value.str s) => some s
      | _ => none)
    let grouped := (firstDedup keys).map (fun k => (k, keys.count k))
    (sSortLe (fun a b => decide (b.2 ≤ a.2)) grouped).take n

/-- Models `BaseMetricSet.minutes_for(player)` (the `dict.get(player, 0.0)`
variant with falsy players mapped to 0.0). -/
def minutes_for (minutes_map : List (String × ℚ)) (player : Option String) : ℚ :=
  match player with
  | none => 0
  | some p => if p = "" then 0 else (minutes_map.lookup p).getD 0

/-- Models `BaseMetricSet.per_90(value, player)` — the second, surviving
definition in the class body: 0.0 when the stored minutes are missing,
zero, or negative, else `value / minutes * 90`. -/
def per_90 (minutes_map : List (String × ℚ)) (value : ℚ) (player : Option String) : ℚ :=
  let mins := minutes_for minutes_map player
  if mins ≤ 0 then 0 else (value / mins) * 90

end BaseMetricSet

-- ─────────────────────────────────────────────────────────────
-- src/metrics/competition/passes.py : CompetitionPassMetrics
-- ─────────────────────────────────────────────────────────────

namespace CompetitionPassMetrics

/-- Models `CompetitionPassMetrics.__init__(df)`: the base initializer with
`event_type="Pass"` and `outcome_column="pass_outcome"`; no scope
filter. -/
def init (df : DFrame) : DFrame :=
  BaseMetricSet.postInit df (some "Pass")

/-- Count of completed passes used by `passing_percentage`: rows whose
`pass_outcome` is NaN when that column exists, else 0. -/
def completedCount (df : DFrame) : ℕ :=
  if "pass_outcome" ∈ df.cols then
    (df.rows.filter (fun r =>
      match cellIn df.cols r "pass_outcome" with
      | some v => isNullV v
      | none => false)).length
  else 0

/-- Models `CompetitionPassMetrics.passing_percentage(player)`: optional player
refinement, 0.0 on an empty refined frame, else completed/attempted
(the inner `if attempted > 0` guard is subsumed by the empty check). -/
def passing_percentage (df0 : DFrame) (player : Option String := none) : ℚ :=
  let d := init df0
  let df := PassMetricsCore.playerScope d player
  if df.rows.isEmpty then 0
  else (completedCount df : ℚ) / (df.rows.length : ℚ)

end CompetitionPassMetrics

-- ─────────────────────────────────────────────────────────────
-- src/metrics/player/passes.py : PlayerPassMetrics
-- ─────────────────────────────────────────────────────────────

namespace PlayerPassMetrics

/-- Models `PlayerPassMetrics.__init__(df, player_name)`:
`filter_by_player` first, then the base initializer with
`event_type="Pass"` and `outcome_column="pass_outcome"`. -/
def init (df : DFrame) (player_name : String) : DFrame :=
  BaseMetricSet.postInit (filter_by_player df player_name) (some "Pass")

/-- Models `PlayerPassMetrics.passing_percentage()`: same completed/attempted
body as the competition wrapper, over the already player-scoped frame. -/
def passing_percentage (df0 : DFrame) (player_name : String) : ℚ :=
  let df := init df0 player_name
  if df.rows.isEmpty then 0
  else (CompetitionPassMetrics.completedCount df : ℚ) / (df.rows.length : ℚ)

end PlayerPassMetrics

-- ─────────────────────────────────────────────────────────────
-- src/metrics/match/passes.py : MatchPassMetrics
-- ─────────────────────────────────────────────────────────────

/-- The attribute names defined in the body of `BaseMetricSet`
(src/metrics/base_metrics.py); Python attribute resolution on
`super()` can only find one of these. -/
def baseMetricSetMethods : List String :=
  ["__post_init__", "_is_success", "_is_completed", "_and_all", "where",
   "attempts", "successes", "success_rate", "mean_of", "sum_of", "per_90",
   "mask_open_play", "mask_pressured", "in_box_series", "final_third_series",
   "pass_angle_series", "top_n", "top_by_bool", "set_minutes_map",
   "minutes_for"]

namespace MatchPassMetrics

/-- Models `MatchPassMetrics.pass_success_rate(player)`: the body is
`return super().action_success_rate(player)`.  Python resolves the
attribute against the base class; `action_success_rate` is not among
`BaseMetricSet`'s attributes, so the call raises `AttributeError`
before reading any data (there is no empty-frame guard).  The raised
exception is modelled as `Except.error`; the `Except.ok` branch is the
(unreachable) successful dispatch. -/
def pass_success_rate (df : DFrame) (player : Option String := none) : Except String ℚ :=
  if "action_success_rate" ∈ baseMetricSetMethods then
    Except.ok (BaseMetricSet.success_rate (PassMetricsCore.playerScope df player)
      (some "pass_outcome") [])
  else
    Except.error "AttributeError: action_success_rate"

end MatchPassMetrics

-- ─────────────────────────────────────────────────────────────
-- src/metrics/shared/minutes.py : MinutesPlayedCalculator
-- ─────────────────────────────────────────────────────────────

-- Python `dict[str, float]` with insertion-order semantics, as an
-- association list.
namespace PyDict

def get (m : List (String × ℚ)) (k : String) : Option ℚ := m.lookup k

/-- Models `dict.setdefault(k, v)`: insert only when absent (at the end). -/
def setdefault (m : List (String × ℚ)) (k : String) (v : ℚ) : List (String × ℚ) :=
  if (m.lookup k).isSome then m else m ++ [(k, v)]

/-- Models `dict[k] = v`: overwrite in place, or append when absent. -/
def setVal (m : List (String × ℚ)) (k : String) (v : ℚ) : List (String × ℚ) :=
  if (m.lookup k).isSome then
    m.map (fun p => if p.1 = k then (k, v) else p)
  else m ++ [(k, v)]

end PyDict

namespace MinutesPlayedCalculator

/-- Models `PERIOD_OFFSET` (minutes.py): period → offset in absolute minutes;
`dict.get(period, 0.0)` for unknown periods. -/
def PERIOD_OFFSET (p : ℤ) : ℚ :=
  if p = 1 then 0 else if p = 2 then 45 else if p = 3 then 90
  else if p = 4 then 105 else if p = 5 then 120 else 0

/-- Models `_abs_minute(row)`: `PERIOD_OFFSET[int(period)] + minute + second/60`
with defaults period=1, minute=0, second=0 for an absent column or a
null period.  Modelling note: `float(nan or 0)` in Python keeps NaN for
a null minute/second (NaN is truthy); that propagation is not modelled —
every row in scope carries concrete clock values, and null
minute/second is read as the 0 default here. -/
def abs_minute (cols : List String) (r : Row) : ℚ :=
  let period : ℤ := match cellIn cols r "period" with
    | some (Value.num q) => ratTrunc q
    | _ => 1
  let minute : ℚ := match cellIn cols r "minute" with
    | some (Value.num q) => q
    | _ => 0
  let second : ℚ := match cellIn cols r "second" with
    | some (Value.num q) => q
    | _ => 0
  PERIOD_OFFSET period + minute + second / 60

/-- Models `_col(df, candidates)`: first candidate present in the frame. -/
def colPick (df : DFrame) (cands : List String) : Option String :=
  cands.find? (fun c => decide (c ∈ df.cols))

/-- Chronological sort key (period, minute, second); the `match_c`
component of the source's sort key is constant within a group.
NaN keys do not occur in the rows in scope. -/
def chronoKey (cols : List String) (r : Row) : ℚ × ℚ × ℚ :=
  ((toNumeric (cellIn cols r "period")).getD 0,
   (toNumeric (cellIn cols r "minute")).getD 0,
   (toNumeric (cellIn cols r "second")).getD 0)

/-- Lexicographic ≤ on the chronological key. -/
def chronoLe (cols : List String) (a b : Row) : Bool :=
  let x := chronoKey cols a
  let y := chronoKey cols b
  decide (x.1 < y.1) ||
    (decide (x.1 = y.1) &&
      (decide (x.2.1 < y.2.1) ||
        (decide (x.2.1 = y.2.1) && decide (x.2.2 ≤ y.2.2))))

/-- The string player of a row (`isinstance(p, str)` filter). -/
def strCell (cols : List String) (r : Row) (c : String) : Option String :=
  match cellIn cols r c with
  | some (Value.str s) => some s
  | _ => none

/-- One iteration of the event loop in `compute`: updates
`(on_time, off_time)` for a row (substitution off/on, then the
red-card / second-yellow check, which also sees a same-row
substitution's update, as in the source). -/
def step (cols : List String) (pc tc : String) (card_c subs_in_c : Option String)
    (st : List (String × ℚ) × List (String × ℚ)) (r : Row) :
    List (String × ℚ) × List (String × ℚ) :=
  let on_time := st.1
  let off_time := st.2
  let t_abs := abs_minute cols r
  let p? := strCell cols r pc
  let offPlayer := fun (on_t off_t : List (String × ℚ)) =>
    match p? with
    | some p =>
        if p ≠ "" ∧ (PyDict.get on_t p).isSome ∧ (PyDict.get off_t p).isNone then
          PyDict.setVal off_t p (max ((PyDict.get off_t p).getD 0) t_abs)
        else off_t
    | none => off_t
  let sub := cellEqStr (cellIn cols r tc) "Substitution"
  let off_time := if sub then offPlayer on_time off_time else off_time
  let on_time :=
    if sub then
      match subs_in_c with
      | some sc =>
          match strCell cols r sc with
          | some pin => if pin ≠ "" then PyDict.setdefault on_time pin t_abs else on_time
          | none => on_time
      | none => on_time
    else on_time
  let off_time :=
    match card_c with
    | some cc =>
        match strCell cols r cc with
        | some ct =>
            if ct = "Red Card" ∨ ct = "Second Yellow" then offPlayer on_time off_time
            else off_time
        | none => off_time
    | none => off_time
  (on_time, off_time)

/-- The per-match body of `compute`: starters on from 0:00, the
chronological event loop (stable sort, modelling `kind="mergesort"`),
then every still-on player closed at the match's last absolute minute
capped at 120, accumulated into `minutes_total`. -/
def computeMatch (cols : List String) (pc tc : String)
    (card_c subs_in_c : Option String)
    (minutes_total : List (String × ℚ)) (mdf : List Row) : List (String × ℚ) :=
  let starters := mdf.filter (fun r => cellEqStr (cellIn cols r tc) "Starting XI")
  let on0 : List (String × ℚ) := starters.foldl (fun m r =>
      match strCell cols r pc with
      | some p => PyDict.setdefault m p 0
      | none => m) []
  let sorted := sSortLe (chronoLe cols) mdf
  let st := sorted.foldl (step cols pc tc card_c subs_in_c) (on0, [])
  let match_end : ℚ := match sorted.getLast? with
    | some lr => min (abs_minute cols lr) 120
    | none => 90
  st.1.foldl (fun mt pt =>
    let t_off := (PyDict.get st.2 pt.1).getD match_end
    let played := max 0 (t_off - pt.2)
    PyDict.setVal mt pt.1 ((PyDict.get mt pt.1).getD 0 + played)) minutes_total

/-- Models `MinutesPlayedCalculator.compute(df)` with auto-detected columns:
empty map on an empty frame or when the player / type / match-key
columns are all undetectable; otherwise the per-match computation over
each match group.  (pandas sorts group keys; group order only permutes
dict insertion order, never the resulting mapping, so groups are
processed in first-encountered order.  The team column is resolved by
the source but never used.) -/
def compute (df : DFrame) : List (String × ℚ) :=
  if df.rows.isEmpty then []
  else
    let player_c := colPick df ["player", "player_name"]
    let match_c := colPick df ["match_name", "match_id", "matchid"]
    let type_c := colPick df ["type"]
    let card_c := colPick df ["card_type", "foul_card", "foul_card_type"]
    let subs_in_c := colPick df
      ["substitution_replacement", "substitution_replacement_name", "substitution_in"]
    match player_c, type_c, match_c with
    | some pc, some tc, some mc =>
        let matchKeys := firstDedup (df.rows.map (fun r => cellIn df.cols r mc))
        matchKeys.foldl (fun minutes_total mk =>
          let mdf := df.rows.filter (fun r => decide (cellIn df.cols r mc = mk))
          computeMatch df.cols pc tc card_c subs_in_c minutes_total mdf) []
    | _, _, _ => []

end MinutesPlayedCalculator

-- ─────────────────────────────────────────────────────────────
-- Spec-side comparison definitions and concrete datasets
-- ─────────────────────────────────────────────────────────────

/-- Modelled from the spec's words, for comparison with
`PassMetricsCore.f3_pass_forward_percentage` only: the final-third
forward share computed with zone boundaries at 1/3 and 2/3 of the
maximum observed x (i.e. over the `_direction_masks_by_zone` "F3"
masks), as §4.1 of the spec describes for every zone-based metric. -/
def f3_forward_percentage_observed (c : PassMetricsCore.Core)
    (player : Option String) : ℚ :=
  let df := PassMetricsCore.playerScope c.df player
  let att := (df.rows.filter (PassMetricsCore.dir_denom df "F3")).length
  if att = 0 then 0
  else ((df.rows.filter (PassMetricsCore.dir_forward df "F3")).length : ℚ) / (att : ℚ)

/-- Spec-level count of the distinct non-null `match_id` values a player
`p` appears with: the distinct `(player, match_id)` pairs having first
component `p` (the first component is fixed, so this counts distinct
match values). -/
def distinct_match_count (df : DFrame) (p : String) : ℕ :=
  (firstDedup ((df.rows.filterMap fun r =>
    match cellIn df.cols r "player", cellIn df.cols r "match_id" with
    | some (Value.str s), some mv => if isNullV mv then none else some (s, mv)
    | _, _ => none).filter (fun q => q.1 = p))).length

/-- The non-null string values of column `c` (the keys `dropna()` keeps). -/
def strValues (df : DFrame) (c : String) : List String :=
  df.rows.filterMap (fun r =>
    match cellIn df.cols r c with
    | some (Value.str s) => some s
    | _ => none)

/-- The synthetic single match of the minutes-reconstruction scenario:
Starting XI {A, B}; a Substitution at absolute minute 60 (period 2,
clock 15:00) with B going off and replacement C coming on; a Red Card
for A at absolute minute 80 (period 2, clock 35:00); last event at
absolute minute 90 (period 2, clock 45:00). -/
def minutesScenarioDF : DFrame :=
  { cols := ["type", "player", "period", "minute", "second", "match_id",
             "substitution_replacement", "card_type"]
    rows :=
      [ [("type", Value.str "Starting XI"), ("player", Value.str "A"),
         ("period", Value.num 1), ("minute", Value.num 0), ("second", Value.num 0),
         ("match_id", Value.num 1)],
        [("type", Value.str "Starting XI"), ("player", Value.str "B"),
         ("period", Value.num 1), ("minute", Value.num 0), ("second", Value.num 0),
         ("match_id", Value.num 1)],
        [("type", Value.str "Substitution"), ("player", Value.str "B"),
         ("substitution_replacement", Value.str "C"), ("period", Value.num 2),
         ("minute", Value.num 15), ("second", Value.num 0), ("match_id", Value.num 1)],
        [("type", Value.str "Foul Committed"), ("player", Value.str "A"),
         ("card_type", Value.str "Red Card"), ("period", Value.num 2),
         ("minute", Value.num 35), ("second", Value.num 0), ("match_id", Value.num 1)],
        [("type", Value.str "Half End"), ("period", Value.num 2),
         ("minute", Value.num 45), ("second", Value.num 0), ("match_id", Value.num 1)] ] }

/-- A one-pass dataset for player "P" (a forward pass in the player's own
observed final third); used to exercise the per-90 plumbing with an
explicitly injected empty minutes map. -/
def perNinetyDF : DFrame :=
  { cols := ["type", "player", "x", "y", "pass_end_x", "pass_end_y"]
    rows := [ [("type", Value.str "Pass"), ("player", Value.str "P"),
               ("x", Value.num 10), ("y", Value.num 40),
               ("pass_end_x", Value.num 20), ("pass_end_y", Value.num 40)] ] }

/-- A dataset whose maximum observed x is 90 (a 0–100-style convention):
P's forward pass runs 70 → 75, inside the observed final third
(boundary 60) but below the fixed threshold 80; Q's pass has a missing
end coordinate and is excluded from every direction denominator. -/
def observedExtentDF : DFrame :=
  { cols := ["type", "player", "x", "y", "pass_end_x", "pass_end_y"]
    rows :=
      [ [("type", Value.str "Pass"), ("player", Value.str "P"),
         ("x", Value.num 70), ("y", Value.num 40),
         ("pass_end_x", Value.num 75), ("pass_end_y", Value.num 40)],
        [("type", Value.str "Pass"), ("player", Value.str "Q"),
         ("x", Value.num 90), ("y", Value.num 40),
         ("pass_end_x", Value.null), ("pass_end_y", Value.num 40)] ] }

/-- Two players with one row each, "Amy" first in source order, tied on
count. -/
def tieBreakDF : DFrame :=
  { cols := ["player"]
    rows := [ [("player", Value.str "Amy")], [("player", Value.str "Zed")] ] }

/-- Four Pass rows for player X (two completed, one incomplete) plus one
Shot row and one row of player Y; exercises scope commutation. -/
def scopeDF : DFrame :=
  { cols := ["type", "player", "pass_outcome"]
    rows :=
      [ [("type", Value.str "Pass"), ("player", Value.str "X")],
        [("type", Value.str "Pass"), ("player", Value.str "X"),
         ("pass_outcome", Value.str "Incomplete")],
        [("type", Value.str "Shot"), ("player", Value.str "X")],
        [("type", Value.str "Pass"), ("player", Value.str "Y")] ] }

/-- Through-ball scenario rows: flag-only ("yes" with null technique),
technique-only (null flag with "Through Ball"), neither, plus boolean /
numeric / hyphenated variants. -/
def tbFlagDF : DFrame :=
  { cols := ["pass_through_ball", "pass_technique"]
    rows := [ [("pass_through_ball", Value.str "yes"), ("pass_technique", Value.null)] ] }

def tbTechDF : DFrame :=
  { cols := ["pass_through_ball", "pass_technique"]
    rows := [ [("pass_through_ball", Value.null),
               ("pass_technique", Value.str "Through Ball")] ] }

def tbNeitherDF : DFrame :=
  { cols := ["pass_through_ball", "pass_technique"]
    rows := [ [("pass_through_ball", Value.null), ("pass_technique", Value.null)] ] }

def tbBoolDF : DFrame :=
  { cols := ["pass_through_ball"]
    rows := [ [("pass_through_ball", Value.boolean true)] ] }

def tbNumDF : DFrame :=
  { cols := ["pass_through_ball"]
    rows := [ [("pass_through_ball", Value.num 1)] ] }

def tbHyphenDF : DFrame :=
  { cols := ["pass_technique"]
    rows := [ [("pass_technique", Value.str "Straight Through-Ball pass")] ] }

/-- Player P in matches 1 and 2 (with a duplicate row), player Q in
match 1 only. -/
def fallbackDF : DFrame :=
  { cols := ["player", "match_id"]
    rows := [ [("player", Value.str "P"), ("match_id", Value.num 1)],
              [("player", Value.str "P"), ("match_id", Value.num 1)],
              [("player", Value.str "P"), ("match_id", Value.num 2)],
              [("player", Value.str "Q"), ("match_id", Value.num 1)] ] }

/-- A frame without a `type` column. -/
def noTypeColDF : DFrame :=
  { cols := ["player", "pass_outcome"]
    rows := [ [("player", Value.str "X")],
              [("player", Value.str "Y"), ("pass_outcome", Value.str "Out")] ] }

-- ─────────────────────────────────────────────────────────────
-- Theorems
-- ─────────────────────────────────────────────────────────────

/-- Filtering a list by two predicates commutes. -/
lemma filter_comm (l : List α) (p q : α → Bool) :
    (l.filter p).filter q = (l.filter q).filter p := by
  simp only [List.filter_filter]
  exact List.filter_congr (fun a _ => by rw [Bool.and_comm])

/-- C3: for the synthetic single match with Starting XI {A, B}, a
substitution B→C at absolute minute 60, a red card for A at absolute
minute 80, and a last event at absolute minute 90,
`MinutesPlayedCalculator.compute` returns exactly
{A: 80, B: 60, C: 30}. -/
theorem minutes_reconstruction_scenario :
    MinutesPlayedCalculator.compute minutesScenarioDF
      = [("A", 80), ("B", 60), ("C", 30)] := by
  with_unfolding_all rfl

/-- C1: for every event dataset D and player name p present in D,
`CompetitionPassMetrics(D).passing_percentage(player=p)` equals
`PlayerPassMetrics(D, p).passing_percentage()` — Pass-filter-then-player
and player-filter-then-Pass select the same row subset, and both
wrappers compute the same completed/attempted ratio over it. -/
theorem scope_consistency_passing_percentage (D : DFrame) (p : String)
    (hcol : "player" ∈ D.cols)
    (hp : ∃ r ∈ D.rows, cellIn D.cols r "player" = some (Value.str p)) :
    CompetitionPassMetrics.passing_percentage D (some p)
      = PlayerPassMetrics.passing_percentage D p := by
  have hframe :
      PassMetricsCore.playerScope (CompetitionPassMetrics.init D) (some p)
        = PlayerPassMetrics.init D p := by
    unfold CompetitionPassMetrics.init PlayerPassMetrics.init BaseMetricSet.postInit
      PassMetricsCore.playerScope filter_by_player
    by_cases ht : "type" ∈ D.cols
    · simp only [ht, if_pos]
      exact congrArg (DFrame.mk D.cols) (filter_comm D.rows _ _)
    · simp only [ht, if_neg, not_false_iff]
  simp only [CompetitionPassMetrics.passing_percentage,
    PlayerPassMetrics.passing_percentage]
  rw [hframe]

/-- Witness for C1 at the concrete scope dataset and player "X". -/
theorem scope_consistency_passing_percentage_witness :
    ("player" ∈ scopeDF.cols)
    ∧ (∃ r ∈ scopeDF.rows, cellIn scopeDF.cols r "player" = some (Value.str "X"))
    ∧ CompetitionPassMetrics.passing_percentage scopeDF (some "X")
        = PlayerPassMetrics.passing_percentage scopeDF "X" :=
  ⟨by decide,
   ⟨[("type", Value.str "Pass"), ("player", Value.str "X")], by decide, by decide⟩,
   scope_consistency_passing_percentage scopeDF "X" (by decide)
     ⟨[("type", Value.str "Pass"), ("player", Value.str "X")], by decide, by decide⟩⟩

/-- C2 counterexample: with an explicitly injected empty minutes map,
player "P" is absent from the map, yet `d3/f3` style per-90 metrics of
`PassMetricsCore` do not return 0.0 — `_per90` substitutes
`DEFAULT_MATCH_MINUTES` and returns the raw value
(here `f3_pass_attempts_per90 = 1`). -/
theorem per90_missing_key_counterexample :
    (List.lookup "P" ([] : List (String × ℚ)) = none)
    ∧ PassMetricsCore.f3_pass_attempts_per90
        (PassMetricsCore.init perNinetyDF (some []) "player") "P" = 1
    ∧ (1 : ℚ) ≠ 0 := by
  refine ⟨rfl, by with_unfolding_all rfl, by norm_num⟩

/-- C2 amended: for a key absent from the injected minutes map,
`PassMetricsCore._per90` falls back to `DEFAULT_MATCH_MINUTES` = 90 and
returns `value * 90 / 90 = value` (not 0.0); the return-0.0-on-missing
behavior belongs to `BaseMetricSet.per_90` instead. -/
theorem per90_missing_key_amended (mm : List (String × ℚ)) (v : ℚ) (k : String)
    (hk : mm.lookup k = none) :
    PassMetricsCore.per90 mm v k = v
    ∧ BaseMetricSet.per_90 mm v (some k) = 0 := by
  constructor
  · unfold PassMetricsCore.per90 PassMetricsCore.DEFAULT_MATCH_MINUTES
    rw [hk]
    norm_num
  · unfold BaseMetricSet.per_90 BaseMetricSet.minutes_for
    by_cases hk0 : k = "" <;> simp [hk, hk0]

/-- Witness for C2 amended at the empty map, value 7, key "P". -/
theorem per90_missing_key_amended_witness :
    (List.lookup "P" ([] : List (String × ℚ)) = none)
    ∧ PassMetricsCore.per90 [] 7 "P" = 7
    ∧ BaseMetricSet.per_90 [] 7 (some "P") = 0 :=
  ⟨rfl, (per90_missing_key_amended [] 7 "P" rfl).1,
   (per90_missing_key_amended [] 7 "P" rfl).2⟩

/-- C10: if the input frame has no `type` column, construction performs
no event-family filtering at all — `BaseMetricSet.__post_init__` (and
hence `PassMetricsCore.__init__`, which passes `event_type="Pass"`)
retains every row of the input. -/
theorem no_type_column_retains_all_rows (df : DFrame) (et : String)
    (h : "type" ∉ df.cols) :
    BaseMetricSet.postInit df (some et) = df
    ∧ (PassMetricsCore.init df none "player").df = df := by
  constructor
  · simp [BaseMetricSet.postInit, h]
  · simp [PassMetricsCore.init, BaseMetricSet.postInit, h]

/-- Witness for C10 at a concrete frame without a `type` column. -/
theorem no_type_column_retains_all_rows_witness :
    ("type" ∉ noTypeColDF.cols)
    ∧ BaseMetricSet.postInit noTypeColDF (some "Pass") = noTypeColDF
    ∧ (PassMetricsCore.init noTypeColDF none "player").df = noTypeColDF :=
  ⟨by decide, (no_type_column_retains_all_rows noTypeColDF "Pass" (by decide)).1,
   (no_type_column_retains_all_rows noTypeColDF "Pass" (by decide)).2⟩

/-- Counting a list against three pairwise-exhaustive buckets of a
denominator predicate. -/
lemma countP_partition (l : List α) (p q s d : α → Bool)
    (h : ∀ a, (if p a then 1 else 0) + (if q a then 1 else 0) + (if s a then 1 else 0)
        = (if d a then (1 : ℕ) else 0)) :
    l.countP p + l.countP q + l.countP s = l.countP d := by
  induction l with
  | nil => simp
  | cons a t ih =>
      have ha := h a
      simp only [List.countP_cons]
      cases hp : p a <;> cases hq : q a <;> cases hs : s a <;> cases hd : d a <;>
        simp [hp, hq, hs, hd] at ha ⊢ <;> omega

/-- The forward and backward angle bands are disjoint (the former needs
`dx ≥ 0`, the latter `dx < 0`). -/
lemma bands_disjoint (v : ℚ × ℚ) :
    ¬(BaseMetricSet.forward_band v = true ∧ BaseMetricSet.backward_band v = true) := by
  rintro ⟨h1, h2⟩
  unfold BaseMetricSet.forward_band at h1
  unfold BaseMetricSet.backward_band at h2
  simp only [decide_eq_true_eq] at h1 h2
  linarith [h1.1, h2.1]

/-- Row-level accounting: each row contributes to exactly one of the
three direction buckets iff it is in the denominator. -/
lemma dir_masks_row (df : DFrame) (zone : String) (r : Row) :
    (if PassMetricsCore.dir_forward df zone r then 1 else 0)
      + (if PassMetricsCore.dir_sideways df zone r then 1 else 0)
      + (if PassMetricsCore.dir_backward df zone r then 1 else 0)
      = (if PassMetricsCore.dir_denom df zone r then (1 : ℕ) else 0) := by
  cases hd : PassMetricsCore.dir_denom df zone r
  · simp [PassMetricsCore.dir_forward, PassMetricsCore.dir_sideways,
      PassMetricsCore.dir_backward, hd]
  · match hv : BaseMetricSet.pass_vector df.cols r with
    | none =>
        exfalso
        unfold PassMetricsCore.dir_denom at hd
        rw [hv] at hd
        simp at hd
    | some v =>
        cases hf : BaseMetricSet.forward_band v <;>
          cases hb : BaseMetricSet.backward_band v <;>
          simp [PassMetricsCore.dir_forward, PassMetricsCore.dir_sideways,
            PassMetricsCore.dir_backward, hd, hv, hf, hb]
        exact absurd ⟨hf, hb⟩ (bands_disjoint v)

/-- C4: for every dataset and every zone, the forward, sideways and
backward masks of `_direction_masks_by_zone` are pairwise disjoint and
their counts sum exactly to the denominator count; a row whose pass
vector is not computable (missing start/end coordinates) is excluded
from the denominator and from all three buckets. -/
theorem direction_masks_partition (df : DFrame) (zone : String) :
    ((df.rows.filter (PassMetricsCore.dir_forward df zone)).length
      + (df.rows.filter (PassMetricsCore.dir_sideways df zone)).length
      + (df.rows.filter (PassMetricsCore.dir_backward df zone)).length
      = (df.rows.filter (PassMetricsCore.dir_denom df zone)).length)
    ∧ (∀ r : Row,
        ¬(PassMetricsCore.dir_forward df zone r = true
            ∧ PassMetricsCore.dir_sideways df zone r = true)
        ∧ ¬(PassMetricsCore.dir_forward df zone r = true
            ∧ PassMetricsCore.dir_backward df zone r = true)
        ∧ ¬(PassMetricsCore.dir_sideways df zone r = true
            ∧ PassMetricsCore.dir_backward df zone r = true))
    ∧ (∀ r : Row, BaseMetricSet.pass_vector df.cols r = none →
        PassMetricsCore.dir_denom df zone r = false
        ∧ PassMetricsCore.dir_forward df zone r = false
        ∧ PassMetricsCore.dir_sideways df zone r = false
        ∧ PassMetricsCore.dir_backward df zone r = false) := by
  refine ⟨?_, ?_, ?_⟩
  · rw [← List.countP_eq_length_filter, ← List.countP_eq_length_filter,
      ← List.countP_eq_length_filter, ← List.countP_eq_length_filter]
    exact countP_partition df.rows _ _ _ _ (dir_masks_row df zone)
  · intro r
    refine ⟨?_, ?_, ?_⟩
    · rintro ⟨h1, h2⟩
      unfold PassMetricsCore.dir_sideways at h2
      simp [h1] at h2
    · rintro ⟨h1, h2⟩
      unfold PassMetricsCore.dir_forward at h1
      unfold PassMetricsCore.dir_backward at h2
      match hv : BaseMetricSet.pass_vector df.cols r with
      | none => rw [hv] at h1; simp at h1
      | some v =>
          rw [hv] at h1 h2
          simp only [Bool.and_eq_true] at h1 h2
          exact absurd ⟨h1.2, h2.2⟩ (bands_disjoint v)
    · rintro ⟨h1, h2⟩
      unfold PassMetricsCore.dir_sideways at h1
      simp [PassMetricsCore.dir_backward] at h1 h2
      simp [h2.1, h2.2] at h1
  · intro r hv
    refine ⟨?_, ?_, ?_, ?_⟩ <;>
      simp [PassMetricsCore.dir_denom, PassMetricsCore.dir_forward,
        PassMetricsCore.dir_sideways, PassMetricsCore.dir_backward, hv]

/-- Witness for C4 at the concrete observed-extent dataset and zone
"F3", including the missing-coordinate exclusion at its second row. -/
theorem direction_masks_partition_witness :
    ((observedExtentDF.rows.filter
        (PassMetricsCore.dir_forward observedExtentDF "F3")).length
      + (observedExtentDF.rows.filter
          (PassMetricsCore.dir_sideways observedExtentDF "F3")).length
      + (observedExtentDF.rows.filter
          (PassMetricsCore.dir_backward observedExtentDF "F3")).length
      = (observedExtentDF.rows.filter
          (PassMetricsCore.dir_denom observedExtentDF "F3")).length)
    ∧ PassMetricsCore.dir_denom observedExtentDF "F3"
        [("type", Value.str "Pass"), ("player", Value.str "Q"),
         ("x", Value.num 90), ("y", Value.num 40),
         ("pass_end_x", Value.null), ("pass_end_y", Value.num 40)] = false :=
  ⟨(direction_masks_partition observedExtentDF "F3").1,
   ((direction_masks_partition observedExtentDF "F3").2.2 _
     (by with_unfolding_all rfl)).1⟩

/-- Membership in a stable insertion. -/
lemma mem_sInsertLe {le : α → α → Bool} (a x : α) (l : List α) :
    x ∈ sInsertLe le a l ↔ x = a ∨ x ∈ l := by
  induction l with
  | nil => simp [sInsertLe]
  | cons b t ih =>
      unfold sInsertLe
      cases h : le a b <;> simp [h, ih, List.mem_cons] <;> tauto

/-- Stable insertion preserves sortedness for a total transitive `le`. -/
lemma pairwise_sInsertLe (le : α → α → Bool)
    (htot : ∀ a b, le a b = true ∨ le b a = true)
    (htrans : ∀ a b c, le a b = true → le b c = true → le a c = true)
    (a : α) (l : List α)
    (h : l.Pairwise (fun x y => le x y = true)) :
    (sInsertLe le a l).Pairwise (fun x y => le x y = true) := by
  induction l with
  | nil => simp [sInsertLe]
  | cons b t ih =>
      rcases List.pairwise_cons.mp h with ⟨hb, ht⟩
      unfold sInsertLe
      cases hab : le a b
      · simp only [Bool.false_eq_true, if_false]
        refine List.pairwise_cons.mpr ⟨?_, ih ht⟩
        intro y hy
        rw [mem_sInsertLe] at hy
        rcases hy with heq | hy
        · rw [heq]
          rcases htot a b with h1 | h1
          · rw [h1] at hab; cases hab
          · exact h1
        · exact hb y hy
      · simp only [if_true]
        refine List.pairwise_cons.mpr ⟨?_, List.pairwise_cons.mpr ⟨hb, ht⟩⟩
        intro y hy
        rcases List.mem_cons.mp hy with rfl | hy
        · exact hab
        · exact htrans a b y hab (hb y hy)

/-- Stable insertion sort sorts, for a total transitive `le`. -/
lemma pairwise_sSortLe (le : α → α → Bool)
    (htot : ∀ a b, le a b = true ∨ le b a = true)
    (htrans : ∀ a b c, le a b = true → le b c = true → le a c = true)
    (l : List α) : (sSortLe le l).Pairwise (fun x y => le x y = true) := by
  induction l with
  | nil => simp [sSortLe]
  | cons a t ih => exact pairwise_sInsertLe le htot htrans a _ ih

/-- Sortedness of the full `sort_values(ascending=False).head(n)`
pipeline on counted pairs: counts come out descending. -/
lemma pairwise_take_reverse_sSortLe (l : List (String × ℕ)) (n : ℕ) :
    ((((sSortLe (fun a b => decide (a.2 ≤ b.2)) l).reverse).take n).map
        Prod.snd).Pairwise (fun a b => b ≤ a) := by
  have hs := pairwise_sSortLe (fun a b : String × ℕ => decide (a.2 ≤ b.2))
    (fun a b => by
      rcases Nat.le_total a.2 b.2 with h1 | h1
      · exact Or.inl (by simpa using h1)
      · exact Or.inr (by simpa using h1))
    (fun a b c h1 h2 => by
      simp only [decide_eq_true_eq] at h1 h2 ⊢
      exact le_trans h1 h2) l
  have hs2 : (sSortLe (fun a b => decide (a.2 ≤ b.2)) l).Pairwise
      (fun x y : String × ℕ => x.2 ≤ y.2) :=
    hs.imp (fun h => of_decide_eq_true h)
  have hrev : ((sSortLe (fun a b => decide (a.2 ≤ b.2)) l).reverse).Pairwise
      (fun x y : String × ℕ => y.2 ≤ x.2) :=
    List.pairwise_reverse.mpr hs2
  have htake := hrev.sublist (List.take_sublist n _)
  exact List.pairwise_map.mpr htake

/-- C6 counterexample: on two tied players with "Amy" first in source
row order, `top_n` returns ["Zed", "Amy"], not the first-encountered
order ["Amy", "Zed"] the claim requires — groupby orders keys
alphabetically and `sort_values(ascending=False)` reverses an ascending
argsort, so ties come out in descending key order. -/
theorem top_n_tiebreak_counterexample :
    BaseMetricSet.top_n tieBreakDF "player" 5 = [("Zed", 1), ("Amy", 1)]
    ∧ BaseMetricSet.top_n_claimed tieBreakDF "player" 5 = [("Amy", 1), ("Zed", 1)]
    ∧ BaseMetricSet.top_n tieBreakDF "player" 5
        ≠ BaseMetricSet.top_n_claimed tieBreakDF "player" 5 := by
  have h1 : BaseMetricSet.top_n tieBreakDF "player" 5 = [("Zed", 1), ("Amy", 1)] := by
    with_unfolding_all rfl
  have h2 : BaseMetricSet.top_n_claimed tieBreakDF "player" 5
      = [("Amy", 1), ("Zed", 1)] := by
    with_unfolding_all rfl
  refine ⟨h1, h2, ?_⟩
  rw [h1, h2]
  decide

/-- C6 amended: `top_n` returns the group keys sorted by count
descending, truncated to n rows, and is a pure (hence deterministic)
function of its input; ties, however, follow the reversal of the
ascending sort over alphabetically grouped keys (descending key order),
not first-encountered source order. -/
theorem top_n_count_descending (df : DFrame) (gc : String) (n : ℕ) :
    ((BaseMetricSet.top_n df gc n).map Prod.snd).Pairwise (fun a b => b ≤ a)
    ∧ (BaseMetricSet.top_n df gc n).length ≤ n := by
  unfold BaseMetricSet.top_n
  split
  · simp
  · constructor
    · exact pairwise_take_reverse_sSortLe _ n
    · simpa using Nat.min_le_left n _

/-- C7 counterexample: on the dataset whose maximum observed x is 90,
a forward pass from x=70 to x=75 lies in the observed-extent final
third (boundary 2/3·90 = 60) but below the fixed threshold 80, so
`f3_pass_forward_percentage` — which uses `final_third_series`'s
absolute `x > 80` — returns 0.0 while the observed-extent final-third
forward share is 1.0. -/
theorem f3_direction_fixed_threshold_counterexample :
    PassMetricsCore.f3_pass_forward_percentage
        (PassMetricsCore.init observedExtentDF none "player") none = 0
    ∧ f3_forward_percentage_observed
        (PassMetricsCore.init observedExtentDF none "player") none = 1
    ∧ (0 : ℚ) ≠ 1 :=
  ⟨by with_unfolding_all rfl, by with_unfolding_all rfl, by norm_num⟩

/-- C7 amended: zone metrics built on `_zone_series` place the third
boundaries at 1/3 and 2/3 of the maximum observed numeric x of the
active dataset (via `_third_bounds`); but the final-third direction
percentages (`f3_pass_*_percentage`) classify rows through
`final_third_series`, whose threshold is the fixed absolute `x > 80`
regardless of the observed extent. -/
theorem zone_bounds_amended (df : DFrame) (xcol : String) (m : ℚ)
    (hc : xcol ∈ df.cols) (hne : df.rows ≠ [])
    (hm : (df.rows.filterMap
        (fun r => toNumeric (cellIn df.cols r xcol))).max? = some m)
    (hpos : 0 < m) :
    PassMetricsCore.third_bounds df xcol = (m / 3, 2 * m / 3)
    ∧ (∀ (r : Row) (x : ℚ), toNumeric (cellIn df.cols r "x") = some x →
        (BaseMetricSet.final_third_series df.cols r "x" = true ↔ 80 < x)) := by
  constructor
  · unfold PassMetricsCore.third_bounds
    have hg : ¬(xcol ∉ df.cols ∨ df.rows.isEmpty = true) := by
      push_neg
      refine ⟨hc, ?_⟩
      simpa [List.isEmpty_iff] using hne
    rw [if_neg hg, hm]
    simp only [Option.getD_some]
    rw [if_neg (by linarith)]
  · intro r x hx
    unfold BaseMetricSet.final_third_series
    rw [hx]
    simp

/-- Witness for C7 amended at the observed-extent dataset (max x is 90,
bounds land at 30 and 60). -/
theorem zone_bounds_amended_witness :
    PassMetricsCore.third_bounds observedExtentDF "x" = (90 / 3, 2 * 90 / 3) :=
  (zone_bounds_amended observedExtentDF "x" 90 (by decide) (by decide)
    (by with_unfolding_all rfl) (by norm_num)).1

/-- C8: a row is detected as a through-ball exactly when the
boolean-like flag signal OR the technique-text signal fires (each
contributing only when its column exists); concretely, a row with only
`pass_through_ball = "yes"` counts, a row with only
`pass_technique = "Through Ball"` counts, a row with neither does not,
and the boolean-True, numeric-1 and hyphenated "Through-Ball" encodings
all count. -/
theorem throughball_or_detection (df : DFrame) (r : Row) (hr : r ∈ df.rows) :
    (PassMetricsCore.is_throughball_series df r
      = (PassMetricsCore.throughball_flag df r
          || PassMetricsCore.throughball_technique df r))
    ∧ PassMetricsCore.is_throughball_series tbFlagDF
        [("pass_through_ball", Value.str "yes"), ("pass_technique", Value.null)] = true
    ∧ PassMetricsCore.is_throughball_series tbTechDF
        [("pass_through_ball", Value.null),
         ("pass_technique", Value.str "Through Ball")] = true
    ∧ PassMetricsCore.is_throughball_series tbNeitherDF
        [("pass_through_ball", Value.null), ("pass_technique", Value.null)] = false
    ∧ PassMetricsCore.is_throughball_series tbBoolDF
        [("pass_through_ball", Value.boolean true)] = true
    ∧ PassMetricsCore.is_throughball_series tbNumDF
        [("pass_through_ball", Value.num 1)] = true
    ∧ PassMetricsCore.is_throughball_series tbHyphenDF
        [("pass_technique", Value.str "Straight Through-Ball pass")] = true := by
  refine ⟨?_, by with_unfolding_all rfl, by with_unfolding_all rfl,
    by with_unfolding_all rfl, by with_unfolding_all rfl,
    by with_unfolding_all rfl, by with_unfolding_all rfl⟩
  unfold PassMetricsCore.is_throughball_series
  have hne : df.rows.isEmpty = false := by
    cases hdf : df.rows with
    | nil => rw [hdf] at hr; cases hr
    | cons a t => rfl
  simp [hne]

/-- Witness for C8 at the flag-only frame and its single row. -/
theorem throughball_or_detection_witness :
    PassMetricsCore.is_throughball_series tbFlagDF
        [("pass_through_ball", Value.str "yes"), ("pass_technique", Value.null)]
      = (PassMetricsCore.throughball_flag tbFlagDF
          [("pass_through_ball", Value.str "yes"), ("pass_technique", Value.null)]
        || PassMetricsCore.throughball_technique tbFlagDF
          [("pass_through_ball", Value.str "yes"), ("pass_technique", Value.null)]) :=
  (throughball_or_detection tbFlagDF _ (by decide)).1

/-- Deduplication keeps exactly the original members. -/
lemma mem_firstDedup [DecidableEq α] (x : α) (l : List α) :
    x ∈ firstDedup l ↔ x ∈ l := by
  suffices h : ∀ n (l : List α), l.length ≤ n → (x ∈ firstDedup l ↔ x ∈ l) from
    h l.length l le_rfl
  intro n
  induction n with
  | zero =>
      intro l hl
      cases l with
      | nil => simp [firstDedup]
      | cons a t => simp at hl
  | succ n ih =>
      intro l hl
      cases l with
      | nil => simp [firstDedup]
      | cons a t =>
          have hlen : (t.filter (fun b => b ≠ a)).length ≤ n :=
            le_trans (List.length_filter_le _ _)
              (Nat.succ_le_succ_iff.mp (by simpa using hl))
          have hIH := ih _ hlen
          by_cases hxa : x = a
          · simp [firstDedup, hxa]
          · simp only [ne_eq, decide_not] at hIH
            simp [firstDedup, hIH, List.mem_filter, hxa]

/-- Filtering commutes with first-occurrence deduplication. -/
lemma filter_firstDedup [DecidableEq α] (q : α → Bool) (l : List α) :
    (firstDedup l).filter q = firstDedup (l.filter q) := by
  suffices h : ∀ n (l : List α), l.length ≤ n →
      (firstDedup l).filter q = firstDedup (l.filter q) from h l.length l le_rfl
  intro n
  induction n with
  | zero =>
      intro l hl
      cases l with
      | nil => simp [firstDedup]
      | cons a t => simp at hl
  | succ n ih =>
      intro l hl
      cases l with
      | nil => simp [firstDedup]
      | cons a t =>
        have hlen : (t.filter (fun b => b ≠ a)).length ≤ n :=
          le_trans (List.length_filter_le _ _)
            (Nat.succ_le_succ_iff.mp (by simpa using hl))
        have hIH := ih _ hlen
        cases hqa : q a
        · -- head dropped on both sides
          simp only [firstDedup, List.filter_cons, hqa, if_false, Bool.false_eq_true]
          rw [hIH]
          congr 1
          rw [List.filter_filter]
          refine List.filter_congr (fun b _ => ?_)
          by_cases hba : b = a
          · subst hba; simp [hqa]
          · simp [hba]
        · -- head kept on both sides
          simp only [firstDedup, List.filter_cons, hqa, if_true]
          rw [hIH]
          congr 2
          exact filter_comm t _ _

/-- Lookup in an association list built by tabulating a function over a
key list. -/
lemma lookup_map_fn (ks : List String) (f : String → ℚ) (p : String) :
    (ks.map (fun k => (k, f k))).lookup p
      = if p ∈ ks then some (f p) else none := by
  induction ks with
  | nil => simp
  | cons k t ih =>
      by_cases h : p = k
      · subst h
        simp [List.lookup]
      · have hbeq : (p == k) = false := by
          simpa using h
        simp [List.lookup, hbeq, ih, h]

/-- C9: the implicit fallback minutes map assigns each player
90.0 (`DEFAULT_MATCH_MINUTES`) times the number of distinct non-null
`match_id` values they appear with; when the frame has no `match_id`
column every present player gets exactly 90.0; when the frame is empty
or lacks the key column the map is empty. -/
theorem fallback_minutes_map_characterization (df : DFrame) (p : String) :
    (df.rows = [] ∨ "player" ∉ df.cols →
        PassMetricsCore.fallback_minutes_map df "player" = [])
    ∧ (df.rows ≠ [] → "player" ∈ df.cols → "match_id" ∉ df.cols →
        (PassMetricsCore.fallback_minutes_map df "player").lookup p
          = if p ∈ strValues df "player" then some 90 else none)
    ∧ (df.rows ≠ [] → "player" ∈ df.cols → "match_id" ∈ df.cols →
        (PassMetricsCore.fallback_minutes_map df "player").lookup p
          = if 0 < distinct_match_count df p
            then some (90 * (distinct_match_count df p : ℚ)) else none) := by
  refine ⟨?_, ?_, ?_⟩
  · intro h
    unfold PassMetricsCore.fallback_minutes_map
    rw [if_pos]
    rcases h with h | h
    · exact Or.inl (by simp [h])
    · exact Or.inr h
  · intro h1 h2 h3
    unfold PassMetricsCore.fallback_minutes_map
    rw [if_neg (by
        push_neg
        exact ⟨by simpa [List.isEmpty_iff] using h1, h2⟩),
      if_pos h3, lookup_map_fn]
    simp only [mem_firstDedup]
    rfl
  · intro h1 h2 h3
    unfold PassMetricsCore.fallback_minutes_map
    rw [if_neg (by
        push_neg
        exact ⟨by simpa [List.isEmpty_iff] using h1, h2⟩),
      if_neg (by simpa using h3), lookup_map_fn]
    have hlen : ((firstDedup (df.rows.filterMap fun r =>
        match cellIn df.cols r "player", cellIn df.cols r "match_id" with
        | some (Value.str s), some mv =>
            if isNullV mv then none else some (s, mv)
        | _, _ => none)).filter (fun x => decide (x.1 = p))).length
          = distinct_match_count df p := by
      rw [filter_firstDedup]
      rfl
    have hmem : (p ∈ firstDedup ((firstDedup (df.rows.filterMap fun r =>
        match cellIn df.cols r "player", cellIn df.cols r "match_id" with
        | some (Value.str s), some mv =>
            if isNullV mv then none else some (s, mv)
        | _, _ => none)).map Prod.fst)) ↔ 0 < distinct_match_count df p := by
      rw [mem_firstDedup, List.mem_map, ← hlen]
      constructor
      · rintro ⟨x, hx, hxp⟩
        have hxf : x ∈ (firstDedup (df.rows.filterMap fun r =>
            match cellIn df.cols r "player", cellIn df.cols r "match_id" with
            | some (Value.str s), some mv =>
                if isNullV mv then none else some (s, mv)
            | _, _ => none)).filter (fun y => decide (y.1 = p)) :=
          List.mem_filter.mpr ⟨hx, by simp [hxp]⟩
        exact List.length_pos.mpr (List.ne_nil_of_mem hxf)
      · intro hl
        obtain ⟨x, hx⟩ := List.exists_mem_of_length_pos hl
        obtain ⟨hx1, hx2⟩ := List.mem_filter.mp hx
        exact ⟨x, hx1, by simpa using hx2⟩
    by_cases hp : 0 < distinct_match_count df p
    · rw [if_pos (hmem.mpr hp), if_pos hp]
      rw [hlen]
      rfl
    · rw [if_neg (fun hmm => hp (hmem.mp hmm)), if_neg hp]

/-- Witness for C9 at the concrete two-match frame: P appears in 2
distinct matches and is mapped to 180 minutes. -/
theorem fallback_minutes_map_characterization_witness :
    ((PassMetricsCore.fallback_minutes_map fallbackDF "player").lookup "P"
      = if 0 < distinct_match_count fallbackDF "P"
        then some (90 * (distinct_match_count fallbackDF "P" : ℚ)) else none)
    ∧ distinct_match_count fallbackDF "P" = 2 :=
  ⟨(fallback_minutes_map_characterization fallbackDF "P").2.2
      (by decide) (by decide) (by decide),
   by with_unfolding_all rfl⟩

/-- C5 (the code contradicts the spec here): on the empty dataset,
`MatchPassMetrics.pass_success_rate` does not return 0.0 — its body
delegates to `super().action_success_rate`, an attribute `BaseMetricSet`
does not define, so the call raises `AttributeError`. -/
theorem match_pass_success_rate_attribute_error :
    MatchPassMetrics.pass_success_rate { cols := ["type", "player"], rows := [] } none
        = Except.error "AttributeError: action_success_rate"
      ∧ "action_success_rate" ∉ baseMetricSetMethods := by
  exact ⟨rfl, by decide⟩

end Euro2024
